import Mathlib

/-
Verification of the Shared Execution-Backend Coordinator (python gateway
module of the repository).  The TypeScript module is shallowly embedded:
file-system access, process liveness probes, HTTP health probes, port
allocation and process spawning are oracles collected in a SysEnv record,
while the module-level mutable variables and the persisted gateway.json
record form an explicit CoordState threaded through every operation.
-/

set_option maxHeartbeats 1000000

namespace PyGateway

/-- Environment record as in the source: values may be undefined (none). -/
abbrev EnvMap := List (String × Option String)

/-- Environment record with all values defined. -/
abbrev StrEnv := List (String × String)

/-- Lookup of a key in a defined-value environment, first match wins. -/
def envLookup (env : StrEnv) (k : String) : Option String :=
  match env.find? (fun p => p.1 == k) with
  | some p => some p.2
  | none => none

/-- JS object assignment on an environment: replace the binding of the key
when present (keys are unique in a JS record), otherwise append it. -/
def envSet : StrEnv → String → String → StrEnv
  | [], k, v => [(k, v)]
  | p :: t, k, v => if p.1 == k then (k, v) :: t else p :: envSet t k v

/-- Lookup in an EnvMap; an undefined value and an absent key both give
none, matching JS property access. -/
def envGetO (env : EnvMap) (k : String) : Option String :=
  match env.find? (fun p => p.1 == k) with
  | some p => p.2
  | none => none

/-- JS object assignment on an EnvMap. -/
def envSetO : EnvMap → String → Option String → EnvMap
  | [], k, v => [(k, v)]
  | p :: t, k, v => if p.1 == k then (k, v) :: t else p :: envSetO t k v

/-- Character-list model of String.startsWith, used because the built-in
byte-level implementation does not reduce inside the kernel. -/
def charsStartWith : List Char → List Char → Bool
  | _, [] => true
  | [], _ :: _ => false
  | c :: cs, d :: ds => c == d && charsStartWith cs ds

/-- Does the string s start with the string q. -/
def strStartsWith (s q : String) : Bool := charsStartWith s.data q.data

/-- JS truthiness of a possibly-absent string: undefined and the empty
string are falsy. -/
def jsTruthy : Option String → Bool
  | some s => s != ""
  | none => false

/-- Path join, modelled as separator concatenation. -/
def pathJoin (a b : String) : String := a ++ "/" ++ b

/-- PATH separator: semicolon on windows, colon elsewhere. -/
def delimiterStr (win32 : Bool) : String := if win32 then ";" else ":"

/-- DEFAULT_ENV_ALLOWLIST from the source. -/
def DEFAULT_ENV_ALLOWLIST : List String :=
  ["PATH", "HOME", "USER", "LOGNAME", "SHELL", "LANG", "LC_ALL", "LC_CTYPE",
   "LC_MESSAGES", "TERM", "TERM_PROGRAM", "TERM_PROGRAM_VERSION", "TMPDIR",
   "TEMP", "TMP", "XDG_CACHE_HOME", "XDG_CONFIG_HOME", "XDG_DATA_HOME",
   "XDG_RUNTIME_DIR", "SSH_AUTH_SOCK", "SSH_AGENT_PID", "CONDA_PREFIX",
   "CONDA_DEFAULT_ENV", "VIRTUAL_ENV", "PYTHONPATH"]

/-- DEFAULT_ENV_ALLOW_PREFIXES from the source. -/
def DEFAULT_ENV_ALLOW_PREFIXES : List String := ["LC_", "XDG_", "OMP_"]

/-- DEFAULT_ENV_DENYLIST from the source. -/
def DEFAULT_ENV_DENYLIST : List String :=
  ["OPENAI_API_KEY", "ANTHROPIC_API_KEY", "GOOGLE_API_KEY", "GEMINI_API_KEY",
   "OPENROUTER_API_KEY", "PERPLEXITY_API_KEY", "EXA_API_KEY",
   "AZURE_OPENAI_API_KEY", "MISTRAL_API_KEY"]

/-- filterEnv from the source: drop undefined values, drop deny-listed
keys, keep allow-listed keys, keep keys starting with an allowed starting
string, and drop everything else. -/
def filterEnv (env : EnvMap) : StrEnv :=
  env.filterMap fun p =>
    match p.2 with
    | none => none
    | some v =>
      if DEFAULT_ENV_DENYLIST.contains p.1 then none
      else if DEFAULT_ENV_ALLOWLIST.contains p.1 then some (p.1, v)
      else if DEFAULT_ENV_ALLOW_PREFIXES.any (fun q => strStartsWith p.1 q) then
        some (p.1, v)
      else none

/-- The persisted GatewayInfo record of the source. -/
structure GatewayInfo where
  url : String
  pid : Nat
  startedAt : Int
  refCount : Int
  cwd : String
  deriving Repr, DecidableEq

/-- The AcquireResult record of the source. -/
structure AcquireResult where
  url : String
  isShared : Bool
  deriving Repr, DecidableEq

/-- One recorded call of Bun.spawn: the executable, the working directory
and the environment handed to the backend. -/
structure SpawnCall where
  pythonPath : String
  cwd : String
  env : EnvMap
  deriving Repr, DecidableEq

/-- The coordinator state: the persisted store (gateway.json, none when the
file is absent or unreadable), the module-level mutable variables
localGatewayProcess, localGatewayUrl, idleShutdownTimer (with a generation
counter giving each armed timer a fresh identity) and
isCoordinatorInitialized (named isCoordinatorInit here), plus observation
logs of the spawn and kill effects. -/
structure CoordState where
  store : Option GatewayInfo
  localGatewayProcess : Option Nat
  localGatewayUrl : Option String
  idleShutdownTimer : Option Nat
  timerGen : Nat
  isCoordinatorInit : Bool
  spawns : List SpawnCall
  killedPids : List Nat
  deriving Repr, DecidableEq

/-- Oracles for every external effect the module performs.  Boolean flags
stand for the success of fallible file-system calls; functions stand for
probes whose answer the environment chooses. -/
structure SysEnv where
  testMode : Bool
  ensureDirOk : Bool
  writeOk : Bool
  clearOk : Bool
  now : Int
  pidRunning : Nat → Bool
  healthy : String → Bool
  shellEnv : EnvMap
  processVirtualEnv : Option String
  fileExists : String → Bool
  which : String → Option String
  win32 : Bool
  snapshotPath : Option String
  allocPort : Except String Nat
  spawnPid : Nat
  pollFuel : Nat
  pollExited : Nat → Bool
  pollHealthy : Nat → Bool

/-- resolveVenvPath from the source: the VIRTUAL_ENV of the process
environment when truthy, else the first of cwd/.venv and cwd/venv that
exists, else none. -/
def resolveVenvPath (o : SysEnv) (cwd : String) : Option String :=
  if jsTruthy o.processVirtualEnv then o.processVirtualEnv
  else if o.fileExists (pathJoin cwd ".venv") then some (pathJoin cwd ".venv")
  else if o.fileExists (pathJoin cwd "venv") then some (pathJoin cwd "venv")
  else none

/-- Result of resolvePythonRuntime. -/
structure RuntimeResult where
  pythonPath : String
  env : StrEnv
  deriving Repr, DecidableEq

/-- Name of the binary directory of a virtual environment. -/
def binDirName (o : SysEnv) : String := if o.win32 then "Scripts" else "bin"

/-- Name of the python binary inside that directory. -/
def pythonName (o : SysEnv) : String := if o.win32 then "python.exe" else "python"

/-- New PATH value when the venv binary directory is prepended: the old
PATH when truthy is appended after a separator, as in the source. -/
def prependedPath (o : SysEnv) (env : StrEnv) (binDir : String) : String :=
  match envLookup env "PATH" with
  | some p => if p != "" then binDir ++ delimiterStr o.win32 ++ p else binDir
  | none => binDir

/-- Fallback of resolvePythonRuntime: Bun.which python, else python3, else
the resolution error of the source. -/
def whichFallback (o : SysEnv) (env : StrEnv) : Except String RuntimeResult :=
  match o.which "python" with
  | some p => Except.ok { pythonPath := p, env := env }
  | none =>
    match o.which "python3" with
    | some p => Except.ok { pythonPath := p, env := env }
    | none => Except.error "Python executable not found on PATH"

/-- resolvePythonRuntime from the source.  The venv candidate is the
VIRTUAL_ENV of the base environment when present (nullish coalescing),
else resolveVenvPath; when truthy it is recorded in the returned
environment, and when its python binary exists that binary is returned
with the venv binary directory prepended to PATH; otherwise the which
fallback runs on the environment built so far. -/
def resolvePythonRuntime (o : SysEnv) (cwd : String) (baseEnv : StrEnv) :
    Except String RuntimeResult :=
  let venvPath : Option String :=
    match envLookup baseEnv "VIRTUAL_ENV" with
    | some v => some v
    | none => resolveVenvPath o cwd
  if jsTruthy venvPath then
    let vp := venvPath.getD ""
    let env1 := envSet baseEnv "VIRTUAL_ENV" vp
    let binDir := pathJoin vp (binDirName o)
    let pythonCandidate := pathJoin binDir (pythonName o)
    if o.fileExists pythonCandidate then
      Except.ok { pythonPath := pythonCandidate,
                  env := envSet env1 "PATH" (prependedPath o env1 binDir) }
    else whichFallback o env1
  else whichFallback o baseEnv

/-- Kernel environment handed to Bun.spawn: the resolved runtime
environment plus PYTHONUNBUFFERED, the shell snapshot path, and cwd
prepended to PYTHONPATH when the joined value is truthy. -/
def buildKernelEnv (o : SysEnv) (cwd : String) (runtimeEnv : StrEnv) : EnvMap :=
  let base : EnvMap := runtimeEnv.map (fun p => (p.1, some p.2))
  let e1 := envSetO base "PYTHONUNBUFFERED" (some "1")
  let e2 := envSetO e1 "OMP_SHELL_SNAPSHOT" o.snapshotPath
  let parts : List String :=
    ([some cwd, envGetO e2 "PYTHONPATH"].filterMap id).filter (fun s => s != "")
  let pythonPathParts := String.intercalate (delimiterStr o.win32) parts
  if pythonPathParts != "" then envSetO e2 "PYTHONPATH" (some pythonPathParts)
  else e2

/-- isGatewayAlive from the source: the pid must be running and the health
probe on the url must succeed. -/
def isGatewayAlive (o : SysEnv) (info : GatewayInfo) : Bool :=
  o.pidRunning info.pid && o.healthy info.url

/-- The startup wait loop of startGatewayProcess: at each iteration the
exited flag is consulted first (throwing the launch-failure error with no
kill), then the health probe (returning success and storing the local
process handle and url); when the fuel standing for the startup timeout
runs out, the process tree is killed and the startup-timeout error is
thrown.  The iteration index i addresses the observation oracles. -/
def pollLoopAux (o : SysEnv) (url : String) (pid : Nat) (s : CoordState) :
    Nat → Nat → Except String (String × Nat) × CoordState
  | _, 0 =>
    (Except.error "Gateway startup timeout",
     { s with killedPids := s.killedPids ++ [pid] })
  | i, fuel + 1 =>
    if o.pollExited i then
      (Except.error "Gateway process exited during startup", s)
    else if o.pollHealthy i then
      (Except.ok (url, pid),
       { s with localGatewayProcess := some pid, localGatewayUrl := some url })
    else pollLoopAux o url pid s (i + 1) fuel

/-- startGatewayProcess from the source: filter the shell environment,
resolve the python runtime (propagating its error), build the kernel
environment, allocate a port (propagating its error), record the spawn and
run the startup wait loop. -/
def startGatewayProcess (o : SysEnv) (cwd : String) (s : CoordState) :
    Except String (String × Nat) × CoordState :=
  let filteredEnv := filterEnv o.shellEnv
  match resolvePythonRuntime o cwd filteredEnv with
  | Except.error e => (Except.error e, s)
  | Except.ok runtime =>
    let kernelEnv := buildKernelEnv o cwd runtime.env
    match o.allocPort with
    | Except.error e => (Except.error e, s)
    | Except.ok gatewayPort =>
      let gatewayUrl := "http://127.0.0.1:" ++ toString gatewayPort
      let s1 := { s with
        spawns := s.spawns ++
          [{ pythonPath := runtime.pythonPath, cwd := cwd, env := kernelEnv }] }
      pollLoopAux o gatewayUrl o.spawnPid s1 0 o.pollFuel

/-- scheduleIdleShutdown from the source: clear any armed timer and arm a
fresh one; the generation counter gives the new timer a fresh identity. -/
def scheduleIdleShutdown (s : CoordState) : CoordState :=
  { s with idleShutdownTimer := some s.timerGen, timerGen := s.timerGen + 1 }

/-- cancelIdleShutdown from the source. -/
def cancelIdleShutdown (s : CoordState) : CoordState :=
  { s with idleShutdownTimer := none }

/-- shutdownLocalGateway from the source: kill the process tree of the
locally held process (errors are swallowed), then drop the local handle
and url. -/
def shutdownLocalGateway (s : CoordState) : CoordState :=
  match s.localGatewayProcess with
  | some pid =>
    { s with killedPids := s.killedPids ++ [pid],
             localGatewayProcess := none, localGatewayUrl := none }
  | none => s

/-- clearGatewayInfo from the source: unlink the record file; unlink
errors are swallowed, leaving the record in place. -/
def clearGatewayInfo (o : SysEnv) (s : CoordState) : CoordState :=
  if o.clearOk then { s with store := none } else s

/-- The callback armed by scheduleIdleShutdown: re-read the store and,
only when a record is present with refCount exactly 0, shut the local
gateway down and clear the record; the timer handle is dropped in every
case. -/
def idleShutdownFire (o : SysEnv) (s : CoordState) : CoordState :=
  let s1 :=
    match s.store with
    | some info =>
      if info.refCount = 0 then clearGatewayInfo o (shutdownLocalGateway s)
      else s
    | none => s
  { s1 with idleShutdownTimer := none }

/-- The launch arm of acquireSharedGateway: start the gateway process, and
on success persist a fresh record with refCount 1 and mark the coordinator
initialized; a failing write throws inside the try block. -/
def acquireLaunch (o : SysEnv) (cwd : String) (s : CoordState) :
    Except String AcquireResult × CoordState :=
  match startGatewayProcess o cwd s with
  | (Except.error e, s1) => (Except.error e, s1)
  | (Except.ok (url, pid), s1) =>
    if o.writeOk then
      (Except.ok { url := url, isShared := true },
       { s1 with
          store := some { url := url, pid := pid, startedAt := o.now,
                          refCount := 1, cwd := cwd },
          isCoordinatorInit := true })
    else (Except.error "writeGatewayInfo failed", s1)

/-- The try block of acquireSharedGateway: ensure the state directory,
read the record; when present and alive, persist the incremented refCount,
cancel any pending idle shutdown and return the stored url as shared; when
present but not alive, clear the stale record and launch; when absent,
launch. -/
def acquireBody (o : SysEnv) (cwd : String) (s : CoordState) :
    Except String AcquireResult × CoordState :=
  if o.ensureDirOk then
    match s.store with
    | some existingInfo =>
      if isGatewayAlive o existingInfo then
        if o.writeOk then
          (Except.ok { url := existingInfo.url, isShared := true },
           { s with
              store := some { existingInfo with
                               refCount := existingInfo.refCount + 1 },
              idleShutdownTimer := none,
              isCoordinatorInit := true })
        else (Except.error "writeGatewayInfo failed", s)
      else acquireLaunch o cwd (clearGatewayInfo o s)
    | none => acquireLaunch o cwd s
  else (Except.error "ensureGatewayDir failed", s)

/-- acquireSharedGateway from the source: null under the test-mode flag,
otherwise the try block with every thrown error converted to null. -/
def acquireSharedGateway (o : SysEnv) (cwd : String) (s : CoordState) :
    Option AcquireResult × CoordState :=
  if o.testMode then (none, s)
  else
    match acquireBody o cwd s with
    | (Except.ok r, s1) => (some r, s1)
    | (Except.error _, s1) => (none, s1)

/-- releaseSharedGateway from the source: a no-op unless the coordinator
was initialized and a record is present; the decremented refCount is
clamped at 0 and persisted, and when it reaches 0 an idle shutdown is
scheduled after the write; a failing write throws into the catch, leaving
the state unchanged. -/
def releaseSharedGateway (o : SysEnv) (s : CoordState) : CoordState :=
  if s.isCoordinatorInit then
    match s.store with
    | none => s
    | some info =>
      let newRefCount := max 0 (info.refCount - 1)
      if newRefCount = 0 then
        if o.writeOk then
          scheduleIdleShutdown { s with store := some { info with refCount := 0 } }
        else s
      else
        if o.writeOk then { s with store := some { info with refCount := newRefCount } }
        else s
  else s

/-- Iterated release, for the clamping invariant. -/
def releaseIter (o : SysEnv) : Nat → CoordState → CoordState
  | 0, s => s
  | n + 1, s => releaseIter o n (releaseSharedGateway o s)

/-- getSharedGatewayUrl from the source. -/
def getSharedGatewayUrl (s : CoordState) : Option String :=
  s.localGatewayUrl

/-- isSharedGatewayActive from the source. -/
def isSharedGatewayActive (s : CoordState) : Bool :=
  s.localGatewayProcess.isSome && s.localGatewayUrl.isSome

/-- shutdownSharedGateway from the source: cancel the idle timer, clear
the record when present, shut the local gateway down and drop the
initialized flag.  The test-mode flag is not consulted. -/
def shutdownSharedGateway (o : SysEnv) (s : CoordState) : CoordState :=
  let s1 := cancelIdleShutdown s
  let s2 :=
    match s1.store with
    | some _ => clearGatewayInfo o s1
    | none => s1
  let s3 := shutdownLocalGateway s2
  { s3 with isCoordinatorInit := false }

/-- The state after a spawn with runtime rt, before polling. -/
def spawnedState (o : SysEnv) (cwd : String) (s : CoordState) (rt : RuntimeResult) :
    CoordState :=
  { s with spawns := s.spawns ++
      [{ pythonPath := rt.pythonPath, cwd := cwd, env := buildKernelEnv o cwd rt.env }] }

/-- Every record held in the store has a non-negative refCount. -/
def storeRefNonneg (s : CoordState) : Prop :=
  ∀ info : GatewayInfo, s.store = some info → 0 ≤ info.refCount

/-- A live stored record used by the concrete witnesses. -/
def infoW : GatewayInfo :=
  { url := "http://127.0.0.1:7777", pid := 4242, startedAt := 100,
    refCount := 2, cwd := "/proj" }

/-- A coordinator state holding that record, with an armed idle timer and
no locally held process. -/
def sReuse : CoordState :=
  { store := some infoW, localGatewayProcess := none, localGatewayUrl := none,
    idleShutdownTimer := some 3, timerGen := 4, isCoordinatorInit := false,
    spawns := [], killedPids := [] }

/-- Oracles for a healthy world: the stored pid runs, every probe
succeeds, python is on the PATH, the port allocator yields 8888 and the
first startup poll sees a healthy gateway. -/
def oReuse : SysEnv :=
  { testMode := false, ensureDirOk := true, writeOk := true, clearOk := true,
    now := 1000,
    pidRunning := fun _ => true, healthy := fun _ => true,
    shellEnv := [("PATH", some "/usr/bin"), ("HOME", some "/home/u"),
                 ("OPENAI_API_KEY", some "sk-secret"),
                 ("LC_NUMERIC", some "C"), ("RANDOM_VAR", some "x")],
    processVirtualEnv := none,
    fileExists := fun _ => false,
    which := fun n => if n == "python" then some "/usr/bin/python" else none,
    win32 := false, snapshotPath := none,
    allocPort := Except.ok 8888, spawnPid := 4343, pollFuel := 3,
    pollExited := fun _ => false, pollHealthy := fun _ => true }

/-- Oracles where the stored pid is not running. -/
def oDead : SysEnv := { oReuse with pidRunning := fun _ => false }

/-- Oracles under the test-mode environment flag. -/
def oTest : SysEnv := { oReuse with testMode := true }

/-- A state with no stored record. -/
def sEmpty : CoordState := { sReuse with store := none }

/-- Oracles where the spawned process exits before becoming healthy. -/
def oExit : SysEnv := { oReuse with pollExited := fun _ => true }

/-- Oracles where the spawned process never becomes healthy nor exits. -/
def oTimeout : SysEnv := { oReuse with pollHealthy := fun _ => false }

/-- The runtime the which fallback resolves under the concrete oracles. -/
def rtW : RuntimeResult :=
  { pythonPath := "/usr/bin/python",
    env := [("PATH", "/usr/bin"), ("HOME", "/home/u"), ("LC_NUMERIC", "C")] }

/-- Oracles where the state directory cannot be created. -/
def oNoDir : SysEnv := { oReuse with ensureDirOk := false }

/-- Oracles where no python binary can be found anywhere. -/
def oNoPython : SysEnv := { oReuse with which := fun _ => none }

/-- Oracles where port allocation fails. -/
def oPortFail : SysEnv :=
  { oReuse with allocPort := Except.error "Failed to allocate port" }

/-- Oracles where writing the record file fails. -/
def oWriteFail : SysEnv := { oReuse with writeOk := false }

/-- Oracles with an explicit VIRTUAL_ENV in the process environment. -/
def oVenvProc : SysEnv := { oReuse with processVirtualEnv := some "/env/v" }

/-- Oracles where only the conventional cwd/.venv directory exists. -/
def oDotVenv : SysEnv :=
  { oReuse with fileExists := fun p => p == "/proj/.venv" }

/-- Oracles where the python binary of the /proj/.venv virtual environment
exists. -/
def oVenv : SysEnv :=
  { oReuse with fileExists := fun p => p == "/proj/.venv/bin/python" }

/-- A base environment with only a PATH. -/
def baseEnvW : StrEnv := [("PATH", "/usr/bin")]

/-- A base environment that also carries an explicit VIRTUAL_ENV. -/
def baseEnvV : StrEnv := [("PATH", "/usr/bin"), ("VIRTUAL_ENV", "/proj/.venv")]

/-- The reuse state of an invocation that has acquired successfully. -/
def sInit : CoordState := { sReuse with isCoordinatorInit := true }

/-- The stored record with a single remaining reference. -/
def infoOne : GatewayInfo := { infoW with refCount := 1 }

/-- An initialized state holding that single-reference record. -/
def sOne : CoordState := { sInit with store := some infoOne }

/-- A state of the launching invocation after the count dropped to zero:
it holds the local process handle and url, and the stored refCount is 0. -/
def sFire : CoordState :=
  { sReuse with store := some { infoW with refCount := 0 },
                localGatewayProcess := some 999,
                localGatewayUrl := some "http://127.0.0.1:7777" }

example : (acquireSharedGateway oReuse "/proj" sReuse).1 =
    some { url := "http://127.0.0.1:7777", isShared := true } := by rfl

example : (acquireSharedGateway oReuse "/proj" sReuse).2.store =
    some { infoW with refCount := 3 } := by rfl

example : (acquireSharedGateway oDead "/proj" sReuse).1 =
    some { url := "http://127.0.0.1:8888", isShared := true } := by rfl

example : (acquireSharedGateway oDead "/proj" sReuse).2.store =
    some { url := "http://127.0.0.1:8888", pid := 4343, startedAt := 1000,
           refCount := 1, cwd := "/proj" } := by rfl

example : (acquireSharedGateway oTest "/proj" sReuse) = (none, sReuse) := by rfl

example : filterEnv oReuse.shellEnv =
    [("PATH", "/usr/bin"), ("HOME", "/home/u"), ("LC_NUMERIC", "C")] := by rfl

theorem envLookup_nil (k : String) : envLookup [] k = none := rfl

theorem envLookup_cons (p : String × String) (l : StrEnv) (k : String) :
    envLookup (p :: l) k = if p.1 == k then some p.2 else envLookup l k := by
  by_cases h : (p.1 == k) = true
  · simp [envLookup, List.find?_cons_of_pos, h]
  · have h2 : (p.1 == k) = false := by simpa using h
    simp [envLookup, List.find?_cons_of_neg, h2]

theorem envLookup_envSet_self (env : StrEnv) (k v : String) :
    envLookup (envSet env k v) k = some v := by
  induction env with
  | nil => simp [envSet, envLookup_cons]
  | cons p t ih =>
    by_cases h : (p.1 == k) = true
    · simp [envSet, h, envLookup_cons]
    · have h2 : (p.1 == k) = false := by simpa using h
      simp [envSet, h2, envLookup_cons, ih]

theorem envLookup_envSet_ne (env : StrEnv) (k v k2 : String) (hne : k ≠ k2) :
    envLookup (envSet env k v) k2 = envLookup env k2 := by
  induction env with
  | nil => simp [envSet, envLookup_cons, envLookup_nil, hne]
  | cons p t ih =>
    by_cases h : (p.1 == k) = true
    · have hp : p.1 = k := by simpa using h
      simp [envSet, h, envLookup_cons, hp, hne]
    · have h2 : (p.1 == k) = false := by simpa using h
      simp [envSet, h2, envLookup_cons, ih]

theorem mem_filterEnv_not_denied (env : EnvMap) (p : String × String)
    (hp : p ∈ filterEnv env) : DEFAULT_ENV_DENYLIST.contains p.1 = false := by
  unfold filterEnv at hp
  rw [List.mem_filterMap] at hp
  obtain ⟨a, _, hfa⟩ := hp
  cases hv : a.2 with
  | none => rw [hv] at hfa; simp at hfa
  | some v =>
    rw [hv] at hfa
    simp at hfa
    obtain ⟨hnd, hrest⟩ := hfa
    have hp1 : p.1 = a.1 := by
      by_cases h1 : a.1 ∈ DEFAULT_ENV_ALLOWLIST
      · rw [if_pos h1] at hrest
        obtain rfl : (a.1, v) = p := by simpa using hrest
        rfl
      · rw [if_neg h1] at hrest
        by_cases h3 : ∃ x ∈ DEFAULT_ENV_ALLOW_PREFIXES, strStartsWith a.1 x = true
        · rw [if_pos h3] at hrest
          obtain rfl : (a.1, v) = p := by simpa using hrest
          rfl
        · rw [if_neg h3] at hrest
          simp at hrest
    rw [hp1]
    simpa using hnd

theorem envLookup_filterEnv_denied (env : EnvMap) (k : String)
    (hk : DEFAULT_ENV_DENYLIST.contains k = true) :
    envLookup (filterEnv env) k = none := by
  cases hfind : (filterEnv env).find? (fun p => p.1 == k) with
  | none => simp [envLookup, hfind]
  | some q =>
    have hq := List.find?_some hfind
    have hqk : q.1 = k := by simpa using hq
    have hmem : q ∈ filterEnv env := List.mem_of_find?_eq_some hfind
    have hden := mem_filterEnv_not_denied env q hmem
    rw [hqk, hk] at hden
    exact absurd hden (by simp)

theorem pollLoopAux_timeout (o : SysEnv) (url : String) (pid : Nat) (s : CoordState) :
    ∀ fuel i,
      (∀ k, k < fuel → o.pollExited (i + k) = false ∧ o.pollHealthy (i + k) = false) →
      pollLoopAux o url pid s i fuel =
        (Except.error "Gateway startup timeout",
         { s with killedPids := s.killedPids ++ [pid] }) := by
  intro fuel
  induction fuel with
  | zero => intro i _; rfl
  | succ f ih =>
    intro i h
    have h0 := h 0 (Nat.succ_pos f)
    simp only [Nat.add_zero] at h0
    simp only [pollLoopAux, h0.1, h0.2, Bool.false_eq_true, if_false]
    exact ih (i + 1) (fun k hk => by
      have hx := h (k + 1) (Nat.succ_lt_succ hk)
      have harith : i + (k + 1) = i + 1 + k := by omega
      rw [harith] at hx
      exact hx)

theorem pollLoopAux_exited (o : SysEnv) (url : String) (pid : Nat) (s : CoordState) :
    ∀ fuel k i, k < fuel →
      (∀ j, j < k → o.pollExited (i + j) = false ∧ o.pollHealthy (i + j) = false) →
      o.pollExited (i + k) = true →
      pollLoopAux o url pid s i fuel =
        (Except.error "Gateway process exited during startup", s) := by
  intro fuel
  induction fuel with
  | zero => intro k i hk; exact absurd hk (Nat.not_lt_zero k)
  | succ f ih =>
    intro k i hk hpre hx
    cases k with
    | zero =>
      simp only [Nat.add_zero] at hx
      simp [pollLoopAux, hx]
    | succ k2 =>
      have h0 := hpre 0 (Nat.succ_pos k2)
      simp only [Nat.add_zero] at h0
      simp only [pollLoopAux, h0.1, h0.2, Bool.false_eq_true, if_false]
      exact ih k2 (i + 1) (Nat.lt_of_succ_lt_succ hk)
        (fun j hj => by
          have hq := hpre (j + 1) (Nat.succ_lt_succ hj)
          have harith : i + (j + 1) = i + 1 + j := by omega
          rw [harith] at hq
          exact hq)
        (by
          have harith : i + (k2 + 1) = i + 1 + k2 := by omega
          rw [harith] at hx
          exact hx)

theorem pollLoopAux_healthy (o : SysEnv) (url : String) (pid : Nat) (s : CoordState) :
    ∀ fuel k i, k < fuel →
      (∀ j, j < k → o.pollExited (i + j) = false ∧ o.pollHealthy (i + j) = false) →
      o.pollExited (i + k) = false → o.pollHealthy (i + k) = true →
      pollLoopAux o url pid s i fuel =
        (Except.ok (url, pid),
         { s with localGatewayProcess := some pid, localGatewayUrl := some url }) := by
  intro fuel
  induction fuel with
  | zero => intro k i hk; exact absurd hk (Nat.not_lt_zero k)
  | succ f ih =>
    intro k i hk hpre hx hh
    cases k with
    | zero =>
      simp only [Nat.add_zero] at hx hh
      simp [pollLoopAux, hx, hh]
    | succ k2 =>
      have h0 := hpre 0 (Nat.succ_pos k2)
      simp only [Nat.add_zero] at h0
      simp only [pollLoopAux, h0.1, h0.2, Bool.false_eq_true, if_false]
      exact ih k2 (i + 1) (Nat.lt_of_succ_lt_succ hk)
        (fun j hj => by
          have hq := hpre (j + 1) (Nat.succ_lt_succ hj)
          have harith : i + (j + 1) = i + 1 + j := by omega
          rw [harith] at hq
          exact hq)
        (by
          have harith : i + (k2 + 1) = i + 1 + k2 := by omega
          rw [harith] at hx
          exact hx)
        (by
          have harith : i + (k2 + 1) = i + 1 + k2 := by omega
          rw [harith] at hh
          exact hh)

theorem pollLoopAux_cases (o : SysEnv) (url : String) (pid : Nat) (s : CoordState) :
    ∀ fuel i,
      pollLoopAux o url pid s i fuel =
        (Except.ok (url, pid),
         { s with localGatewayProcess := some pid, localGatewayUrl := some url })
      ∨ pollLoopAux o url pid s i fuel =
        (Except.error "Gateway process exited during startup", s)
      ∨ pollLoopAux o url pid s i fuel =
        (Except.error "Gateway startup timeout",
         { s with killedPids := s.killedPids ++ [pid] }) := by
  intro fuel
  induction fuel with
  | zero => intro _; right; right; rfl
  | succ f ih =>
    intro i
    by_cases hx : o.pollExited i = true
    · right; left; simp [pollLoopAux, hx]
    · have hx2 : o.pollExited i = false := by simpa using hx
      by_cases hh : o.pollHealthy i = true
      · left; simp [pollLoopAux, hx2, hh]
      · have hh2 : o.pollHealthy i = false := by simpa using hh
        simpa only [pollLoopAux, hx2, hh2, Bool.false_eq_true, if_false] using ih (i + 1)

theorem pollLoopAux_spawns (o : SysEnv) (url : String) (pid : Nat) (s : CoordState)
    (fuel i : Nat) : (pollLoopAux o url pid s i fuel).2.spawns = s.spawns := by
  rcases pollLoopAux_cases o url pid s fuel i with h | h | h <;> rw [h]

theorem pollLoopAux_store (o : SysEnv) (url : String) (pid : Nat) (s : CoordState)
    (fuel i : Nat) : (pollLoopAux o url pid s i fuel).2.store = s.store := by
  rcases pollLoopAux_cases o url pid s fuel i with h | h | h <;> rw [h]

theorem startGatewayProcess_resolveErr (o : SysEnv) (cwd : String) (s : CoordState)
    (e : String) (hrt : resolvePythonRuntime o cwd (filterEnv o.shellEnv) = Except.error e) :
    startGatewayProcess o cwd s = (Except.error e, s) := by
  simp [startGatewayProcess, hrt]

theorem startGatewayProcess_portErr (o : SysEnv) (cwd : String) (s : CoordState)
    (rt : RuntimeResult) (e : String)
    (hrt : resolvePythonRuntime o cwd (filterEnv o.shellEnv) = Except.ok rt)
    (hp : o.allocPort = Except.error e) :
    startGatewayProcess o cwd s = (Except.error e, s) := by
  simp [startGatewayProcess, hrt, hp]

theorem startGatewayProcess_spawned (o : SysEnv) (cwd : String) (s : CoordState)
    (rt : RuntimeResult) (port : Nat)
    (hrt : resolvePythonRuntime o cwd (filterEnv o.shellEnv) = Except.ok rt)
    (hp : o.allocPort = Except.ok port) :
    startGatewayProcess o cwd s =
      pollLoopAux o ("http://127.0.0.1:" ++ toString port) o.spawnPid
        (spawnedState o cwd s rt) 0 o.pollFuel := by
  simp [startGatewayProcess, hrt, hp, spawnedState]

theorem startGatewayProcess_store (o : SysEnv) (cwd : String) (s : CoordState) :
    (startGatewayProcess o cwd s).2.store = s.store := by
  cases hrt : resolvePythonRuntime o cwd (filterEnv o.shellEnv) with
  | error e => rw [startGatewayProcess_resolveErr o cwd s e hrt]
  | ok rt =>
    cases hp : o.allocPort with
    | error e => rw [startGatewayProcess_portErr o cwd s rt e hrt hp]
    | ok port =>
      rw [startGatewayProcess_spawned o cwd s rt port hrt hp, pollLoopAux_store]
      rfl

theorem startGatewayProcess_of_no_spawn (o : SysEnv) (cwd : String) (s : CoordState)
    (h : (startGatewayProcess o cwd s).2.spawns = s.spawns) :
    (startGatewayProcess o cwd s).2 = s := by
  cases hrt : resolvePythonRuntime o cwd (filterEnv o.shellEnv) with
  | error e => rw [startGatewayProcess_resolveErr o cwd s e hrt]
  | ok rt =>
    cases hp : o.allocPort with
    | error e => rw [startGatewayProcess_portErr o cwd s rt e hrt hp]
    | ok port =>
      rw [startGatewayProcess_spawned o cwd s rt port hrt hp, pollLoopAux_spawns] at h
      simp [spawnedState] at h

theorem acquireLaunch_ok (o : SysEnv) (cwd : String) (s : CoordState)
    (url : String) (pid : Nat) (s1 : CoordState) (hw : o.writeOk = true)
    (h : startGatewayProcess o cwd s = (Except.ok (url, pid), s1)) :
    acquireLaunch o cwd s =
      (Except.ok { url := url, isShared := true },
       { s1 with
          store := some { url := url, pid := pid, startedAt := o.now,
                          refCount := 1, cwd := cwd },
          isCoordinatorInit := true }) := by
  simp [acquireLaunch, h, hw]

theorem acquireLaunch_err (o : SysEnv) (cwd : String) (s : CoordState)
    (e : String) (s1 : CoordState)
    (h : startGatewayProcess o cwd s = (Except.error e, s1)) :
    acquireLaunch o cwd s = (Except.error e, s1) := by
  simp [acquireLaunch, h]

theorem acquireBody_reuse (o : SysEnv) (cwd : String) (s : CoordState)
    (info : GatewayInfo) (hdir : o.ensureDirOk = true) (hst : s.store = some info)
    (hal : isGatewayAlive o info = true) (hw : o.writeOk = true) :
    acquireBody o cwd s =
      (Except.ok { url := info.url, isShared := true },
       { s with store := some { info with refCount := info.refCount + 1 },
                idleShutdownTimer := none, isCoordinatorInit := true }) := by
  simp [acquireBody, hdir, hst, hal, hw]

theorem acquireBody_stale (o : SysEnv) (cwd : String) (s : CoordState)
    (info : GatewayInfo) (hdir : o.ensureDirOk = true) (hst : s.store = some info)
    (hal : isGatewayAlive o info = false) :
    acquireBody o cwd s = acquireLaunch o cwd (clearGatewayInfo o s) := by
  simp [acquireBody, hdir, hst, hal]

theorem acquireBody_absent (o : SysEnv) (cwd : String) (s : CoordState)
    (hdir : o.ensureDirOk = true) (hst : s.store = none) :
    acquireBody o cwd s = acquireLaunch o cwd s := by
  simp [acquireBody, hdir, hst]

theorem acquire_eq_ok (o : SysEnv) (cwd : String) (s : CoordState)
    (r : AcquireResult) (s1 : CoordState) (htm : o.testMode = false)
    (h : acquireBody o cwd s = (Except.ok r, s1)) :
    acquireSharedGateway o cwd s = (some r, s1) := by
  simp [acquireSharedGateway, htm, h]

theorem acquire_eq_none_of_err (o : SysEnv) (cwd : String) (s : CoordState)
    (e : String) (s1 : CoordState) (htm : o.testMode = false)
    (h : acquireBody o cwd s = (Except.error e, s1)) :
    acquireSharedGateway o cwd s = (none, s1) := by
  simp [acquireSharedGateway, htm, h]

theorem acquire_none_of_body_err (o : SysEnv) (cwd : String) (s : CoordState)
    (e : String) (h : (acquireBody o cwd s).1 = Except.error e) :
    (acquireSharedGateway o cwd s).1 = none := by
  by_cases htm : o.testMode = true
  · simp [acquireSharedGateway, htm]
  · have htm2 : o.testMode = false := by simpa using htm
    rcases hb : acquireBody o cwd s with ⟨r, s1⟩
    cases r with
    | ok v => rw [hb] at h; simp at h
    | error e2 => rw [acquire_eq_none_of_err o cwd s e2 s1 htm2 hb]

theorem release_noop_uninit (o : SysEnv) (s : CoordState)
    (h : s.isCoordinatorInit = false) : releaseSharedGateway o s = s := by
  simp [releaseSharedGateway, h]

theorem release_noop_absent (o : SysEnv) (s : CoordState)
    (h : s.store = none) : releaseSharedGateway o s = s := by
  by_cases hi : s.isCoordinatorInit <;> simp [releaseSharedGateway, h, hi]

theorem release_clamp_zero (o : SysEnv) (s : CoordState) (info : GatewayInfo)
    (hi : s.isCoordinatorInit = true) (hst : s.store = some info)
    (hw : o.writeOk = true) (hr : info.refCount ≤ 1) :
    releaseSharedGateway o s =
      { s with store := some { info with refCount := 0 },
               idleShutdownTimer := some s.timerGen, timerGen := s.timerGen + 1 } := by
  have hz : max 0 (info.refCount - 1) = 0 := by omega
  simp [releaseSharedGateway, hi, hst, hw, hz, scheduleIdleShutdown]

theorem release_decrement (o : SysEnv) (s : CoordState) (info : GatewayInfo)
    (hi : s.isCoordinatorInit = true) (hst : s.store = some info)
    (hw : o.writeOk = true) :
    (releaseSharedGateway o s).store =
      some { info with refCount := max 0 (info.refCount - 1) } := by
  by_cases hz : max 0 (info.refCount - 1) = 0
  · have hr : info.refCount ≤ 1 := by omega
    rw [release_clamp_zero o s info hi hst hw hr]
    simp [hz]
  · simp [releaseSharedGateway, hi, hst, hw, hz]

theorem release_preserves_nonneg (o : SysEnv) (s : CoordState)
    (h : storeRefNonneg s) : storeRefNonneg (releaseSharedGateway o s) := by
  intro info2 h2
  by_cases hi : s.isCoordinatorInit = true
  · cases hst : s.store with
    | none =>
      rw [release_noop_absent o s hst] at h2
      rw [hst] at h2
      simp at h2
    | some info =>
      by_cases hw : o.writeOk = true
      · rw [release_decrement o s info hi hst hw] at h2
        obtain rfl : { info with refCount := max 0 (info.refCount - 1) } = info2 := by
          simpa using h2
        simp
      · have hw2 : o.writeOk = false := by simpa using hw
        have hid : releaseSharedGateway o s = s := by
          by_cases hz : max 0 (info.refCount - 1) = 0 <;>
            simp [releaseSharedGateway, hi, hst, hw2, hz]
        rw [hid] at h2
        exact h info2 h2
  · have hi2 : s.isCoordinatorInit = false := by simpa using hi
    rw [release_noop_uninit o s hi2] at h2
    exact h info2 h2

theorem releaseIter_preserves_nonneg (o : SysEnv) :
    ∀ n s, storeRefNonneg s → storeRefNonneg (releaseIter o n s) := by
  intro n
  induction n with
  | zero => intro s h; exact h
  | succ m ih =>
    intro s h
    exact ih (releaseSharedGateway o s) (release_preserves_nonneg o s h)

theorem clearGatewayInfo_spawns (o : SysEnv) (s : CoordState) :
    (clearGatewayInfo o s).spawns = s.spawns := by
  by_cases h : o.clearOk = true <;> simp [clearGatewayInfo, h]

theorem clearGatewayInfo_localProcess (o : SysEnv) (s : CoordState) :
    (clearGatewayInfo o s).localGatewayProcess = s.localGatewayProcess := by
  by_cases h : o.clearOk = true <;> simp [clearGatewayInfo, h]

theorem clearGatewayInfo_localUrl (o : SysEnv) (s : CoordState) :
    (clearGatewayInfo o s).localGatewayUrl = s.localGatewayUrl := by
  by_cases h : o.clearOk = true <;> simp [clearGatewayInfo, h]

theorem acquireLaunch_no_spawn_local (o : SysEnv) (cwd : String) (s0 : CoordState)
    (h : (acquireLaunch o cwd s0).2.spawns = s0.spawns) :
    (acquireLaunch o cwd s0).2.localGatewayProcess = s0.localGatewayProcess
    ∧ (acquireLaunch o cwd s0).2.localGatewayUrl = s0.localGatewayUrl := by
  rcases hsp : startGatewayProcess o cwd s0 with ⟨r, s1⟩
  have hs1 : s1 = (startGatewayProcess o cwd s0).2 := by rw [hsp]
  cases r with
  | error e =>
    rw [acquireLaunch_err o cwd s0 e s1 hsp] at h ⊢
    have heq := startGatewayProcess_of_no_spawn o cwd s0 (by rw [← hs1]; exact h)
    rw [← hs1] at heq
    rw [heq]
    exact ⟨rfl, rfl⟩
  | ok v =>
    obtain ⟨url, pid⟩ := v
    by_cases hw : o.writeOk = true
    · rw [acquireLaunch_ok o cwd s0 url pid s1 hw hsp] at h ⊢
      have heq := startGatewayProcess_of_no_spawn o cwd s0 (by rw [← hs1]; exact h)
      rw [← hs1] at heq
      rw [heq]
      exact ⟨rfl, rfl⟩
    · have hw2 : o.writeOk = false := by simpa using hw
      have hl : acquireLaunch o cwd s0 = (Except.error "writeGatewayInfo failed", s1) := by
        simp [acquireLaunch, hsp, hw2]
      rw [hl] at h ⊢
      have heq := startGatewayProcess_of_no_spawn o cwd s0 (by rw [← hs1]; exact h)
      rw [← hs1] at heq
      rw [heq]
      exact ⟨rfl, rfl⟩

theorem acquireBody_no_spawn_local (o : SysEnv) (cwd : String) (s : CoordState)
    (h : (acquireBody o cwd s).2.spawns = s.spawns) :
    (acquireBody o cwd s).2.localGatewayProcess = s.localGatewayProcess
    ∧ (acquireBody o cwd s).2.localGatewayUrl = s.localGatewayUrl := by
  by_cases hdir : o.ensureDirOk = true
  · cases hst : s.store with
    | some info =>
      by_cases hal : isGatewayAlive o info = true
      · by_cases hw : o.writeOk = true
        · rw [acquireBody_reuse o cwd s info hdir hst hal hw]
          exact ⟨rfl, rfl⟩
        · have hw2 : o.writeOk = false := by simpa using hw
          have hb : acquireBody o cwd s = (Except.error "writeGatewayInfo failed", s) := by
            simp [acquireBody, hdir, hst, hal, hw2]
          rw [hb]
          exact ⟨rfl, rfl⟩
      · have hal2 : isGatewayAlive o info = false := by simpa using hal
        rw [acquireBody_stale o cwd s info hdir hst hal2] at h ⊢
        have hsp : (acquireLaunch o cwd (clearGatewayInfo o s)).2.spawns =
            (clearGatewayInfo o s).spawns := by
          rw [clearGatewayInfo_spawns]
          exact h
        have hc := acquireLaunch_no_spawn_local o cwd (clearGatewayInfo o s) hsp
        rw [clearGatewayInfo_localProcess, clearGatewayInfo_localUrl] at hc
        exact hc
    | none =>
      rw [acquireBody_absent o cwd s hdir hst] at h ⊢
      exact acquireLaunch_no_spawn_local o cwd s h
  · have hdir2 : o.ensureDirOk = false := by simpa using hdir
    have hb : acquireBody o cwd s = (Except.error "ensureGatewayDir failed", s) := by
      simp [acquireBody, hdir2]
    rw [hb]
    exact ⟨rfl, rfl⟩

/-- Claim C1: for every stored record with refCount n whose backend is
alive (pid running and health probe succeeding), acquire writes the record
back with refCount n + 1, returns the stored url with isShared true, and
does not spawn a new backend process. -/
theorem claim_C1 (o : SysEnv) (cwd : String) (s : CoordState) (info : GatewayInfo)
    (htm : o.testMode = false) (hdir : o.ensureDirOk = true) (hw : o.writeOk = true)
    (hst : s.store = some info) (hpid : o.pidRunning info.pid = true)
    (hhl : o.healthy info.url = true) :
    acquireSharedGateway o cwd s =
      (some { url := info.url, isShared := true },
       { s with store := some { info with refCount := info.refCount + 1 },
                idleShutdownTimer := none, isCoordinatorInit := true })
    ∧ (acquireSharedGateway o cwd s).2.spawns = s.spawns := by
  have hal : isGatewayAlive o info = true := by simp [isGatewayAlive, hpid, hhl]
  have hb := acquireBody_reuse o cwd s info hdir hst hal hw
  have he := acquire_eq_ok o cwd s _ _ htm hb
  exact ⟨he, by rw [he]⟩

/-- Witness for C1 at the concrete reuse fixture: refCount goes from 2 to
3, the stored url is returned as shared, no spawn happens. -/
theorem claim_C1_witness :
    acquireSharedGateway oReuse "/proj" sReuse =
      (some { url := "http://127.0.0.1:7777", isShared := true },
       { sReuse with store := some { infoW with refCount := 3 },
                     idleShutdownTimer := none, isCoordinatorInit := true })
    ∧ (acquireSharedGateway oReuse "/proj" sReuse).2.spawns = sReuse.spawns := by
  have h := claim_C1 oReuse "/proj" sReuse infoW rfl rfl rfl rfl rfl rfl
  exact h

/-- Claim C4: the filtered environment never contains a deny-listed
variable, whatever the input environment binds; the deny check runs before
the allow-list and allowed-start checks, so it takes precedence for every
name. -/
theorem claim_C4 (env : EnvMap) (k : String)
    (hk : DEFAULT_ENV_DENYLIST.contains k = true) :
    envLookup (filterEnv env) k = none ∧ ∀ p ∈ filterEnv env, p.1 ≠ k := by
  refine ⟨envLookup_filterEnv_denied env k hk, ?_⟩
  intro p hp hcontra
  have hden := mem_filterEnv_not_denied env p hp
  rw [hcontra, hk] at hden
  exact absurd hden (by simp)

/-- Witness for C4: OPENAI_API_KEY is deny-listed and is dropped from a
concrete environment that binds it. -/
theorem claim_C4_witness :
    DEFAULT_ENV_DENYLIST.contains "OPENAI_API_KEY" = true ∧
    envLookup (filterEnv oReuse.shellEnv) "OPENAI_API_KEY" = none := by
  exact ⟨rfl, (claim_C4 oReuse.shellEnv "OPENAI_API_KEY" rfl).1⟩

/-- Claim C5: release with no stored record is a no-op; when a record is
present the value written back is max 0 (refCount - 1); and however many
release calls are chained, a store that started non-negative never holds a
negative refCount. -/
theorem claim_C5 :
    (∀ (o : SysEnv) (s : CoordState), s.store = none → releaseSharedGateway o s = s)
    ∧ (∀ (o : SysEnv) (s : CoordState) (info : GatewayInfo),
        s.isCoordinatorInit = true → s.store = some info → o.writeOk = true →
        (releaseSharedGateway o s).store =
          some { info with refCount := max 0 (info.refCount - 1) })
    ∧ (∀ (o : SysEnv) (n : Nat) (s : CoordState),
        storeRefNonneg s → storeRefNonneg (releaseIter o n s)) := by
  exact ⟨release_noop_absent,
         release_decrement,
         fun o n s h => releaseIter_preserves_nonneg o n s h⟩

/-- Witness for C5: a release on an empty store is the identity, a release
on a stored refCount 2 writes 1, and after five chained releases from
refCount 2 the stored count is still non-negative (it is 0). -/
theorem claim_C5_witness :
    releaseSharedGateway oReuse sEmpty = sEmpty
    ∧ (releaseSharedGateway oReuse sInit).store = some { infoW with refCount := 1 }
    ∧ (releaseIter oReuse 5 sInit).store = some { infoW with refCount := 0 }
    ∧ 0 ≤ ({ infoW with refCount := 0 } : GatewayInfo).refCount := by
  have hnn : storeRefNonneg sInit := by
    intro info h
    have h2 : some infoW = some info := h
    obtain rfl : infoW = info := by simpa using h2
    decide
  refine ⟨claim_C5.1 oReuse sEmpty rfl, ?_, rfl, ?_⟩
  · have h := claim_C5.2.1 oReuse sInit infoW rfl rfl rfl
    exact h
  · exact claim_C5.2.2 oReuse 5 sInit hnn { infoW with refCount := 0 } rfl

/-- Claim C3: a stored record counts as valid only when both the pid check
and the health probe succeed; when either fails the record is discarded
and a fresh backend is launched instead of returning the stored url, and
the stale record is gone even when that launch fails. -/
theorem claim_C3 :
    (∀ (o : SysEnv) (info : GatewayInfo),
       isGatewayAlive o info = (o.pidRunning info.pid && o.healthy info.url))
    ∧ (∀ (o : SysEnv) (info : GatewayInfo),
        o.pidRunning info.pid = false → isGatewayAlive o info = false)
    ∧ (∀ (o : SysEnv) (cwd : String) (s : CoordState) (info : GatewayInfo)
        (url : String) (pid : Nat) (s1 : CoordState),
        o.testMode = false → o.ensureDirOk = true → o.clearOk = true →
        o.writeOk = true → s.store = some info → isGatewayAlive o info = false →
        startGatewayProcess o cwd { s with store := none } = (Except.ok (url, pid), s1) →
        acquireSharedGateway o cwd s =
          (some { url := url, isShared := true },
           { s1 with store := some { url := url, pid := pid, startedAt := o.now,
                                     refCount := 1, cwd := cwd },
                     isCoordinatorInit := true }))
    ∧ (∀ (o : SysEnv) (cwd : String) (s : CoordState) (info : GatewayInfo)
        (e : String) (s1 : CoordState),
        o.testMode = false → o.ensureDirOk = true → o.clearOk = true →
        s.store = some info → isGatewayAlive o info = false →
        startGatewayProcess o cwd { s with store := none } = (Except.error e, s1) →
        acquireSharedGateway o cwd s = (none, s1) ∧ s1.store = none) := by
  refine ⟨fun o info => rfl, ?_, ?_, ?_⟩
  · intro o info hp
    simp [isGatewayAlive, hp]
  · intro o cwd s info url pid s1 htm hdir hcl hw hst hal hsp
    have hclear : clearGatewayInfo o s = { s with store := none } := by
      simp [clearGatewayInfo, hcl]
    have hb := acquireBody_stale o cwd s info hdir hst hal
    rw [hclear] at hb
    rw [acquireLaunch_ok o cwd { s with store := none } url pid s1 hw hsp] at hb
    exact acquire_eq_ok o cwd s _ _ htm hb
  · intro o cwd s info e s1 htm hdir hcl hst hal hsp
    have hclear : clearGatewayInfo o s = { s with store := none } := by
      simp [clearGatewayInfo, hcl]
    have hb := acquireBody_stale o cwd s info hdir hst hal
    rw [hclear] at hb
    rw [acquireLaunch_err o cwd { s with store := none } e s1 hsp] at hb
    refine ⟨acquire_eq_none_of_err o cwd s e s1 htm hb, ?_⟩
    have hstore := startGatewayProcess_store o cwd { s with store := none }
    rw [hsp] at hstore
    exact hstore

/-- Witness for C3: with the stored pid dead, acquire on the reuse fixture
discards the record, launches a fresh backend on port 8888 and returns the
fresh url, with exactly one spawn recorded. -/
theorem claim_C3_witness :
    isGatewayAlive oDead infoW = false
    ∧ (acquireSharedGateway oDead "/proj" sReuse).1 =
        some { url := "http://127.0.0.1:8888", isShared := true }
    ∧ (acquireSharedGateway oDead "/proj" sReuse).2.store =
        some { url := "http://127.0.0.1:8888", pid := 4343, startedAt := 1000,
               refCount := 1, cwd := "/proj" }
    ∧ (acquireSharedGateway oDead "/proj" sReuse).2.spawns.length = 1 := by
  have h := claim_C3.2.2.1 oDead "/proj" sReuse infoW "http://127.0.0.1:8888" 4343
    (startGatewayProcess oDead "/proj" { sReuse with store := none }).2
    rfl rfl rfl rfl rfl rfl rfl
  refine ⟨claim_C3.2.1 oDead infoW rfl, ?_, ?_, ?_⟩ <;> rw [h] <;> rfl

/-- Claim C10: an acquire that succeeds by reusing a live backend leaves
the invocation-local handle and url empty, so getUrl still returns none
and isActive still returns false; and in general an acquire that performed
no spawn leaves the local process handle and url exactly as they were. -/
theorem claim_C10 :
    (∀ (o : SysEnv) (cwd : String) (s : CoordState) (info : GatewayInfo),
       o.testMode = false → o.ensureDirOk = true → o.writeOk = true →
       s.store = some info → o.pidRunning info.pid = true → o.healthy info.url = true →
       s.localGatewayProcess = none → s.localGatewayUrl = none →
       (acquireSharedGateway o cwd s).1 = some { url := info.url, isShared := true }
       ∧ getSharedGatewayUrl (acquireSharedGateway o cwd s).2 = none
       ∧ isSharedGatewayActive (acquireSharedGateway o cwd s).2 = false)
    ∧ (∀ (o : SysEnv) (cwd : String) (s : CoordState),
        (acquireSharedGateway o cwd s).2.spawns = s.spawns →
        (acquireSharedGateway o cwd s).2.localGatewayProcess = s.localGatewayProcess
        ∧ (acquireSharedGateway o cwd s).2.localGatewayUrl = s.localGatewayUrl) := by
  constructor
  · intro o cwd s info htm hdir hw hst hpid hhl hlp hlu
    have hal : isGatewayAlive o info = true := by simp [isGatewayAlive, hpid, hhl]
    have hb := acquireBody_reuse o cwd s info hdir hst hal hw
    have he := acquire_eq_ok o cwd s _ _ htm hb
    rw [he]
    exact ⟨rfl, by simp [getSharedGatewayUrl, hlu],
           by simp [isSharedGatewayActive, hlp, hlu]⟩
  · intro o cwd s h
    by_cases htm : o.testMode = true
    · have ha : acquireSharedGateway o cwd s = (none, s) := by
        simp [acquireSharedGateway, htm]
      rw [ha]
      exact ⟨rfl, rfl⟩
    · have htm2 : o.testMode = false := by simpa using htm
      rcases hb : acquireBody o cwd s with ⟨r, s1⟩
      have hs1 : s1 = (acquireBody o cwd s).2 := by rw [hb]
      have ha : (acquireSharedGateway o cwd s).2 = s1 := by
        cases r with
        | ok v => rw [acquire_eq_ok o cwd s v s1 htm2 hb]
        | error e => rw [acquire_eq_none_of_err o cwd s e s1 htm2 hb]
      rw [ha] at h ⊢
      rw [hs1] at h ⊢
      exact acquireBody_no_spawn_local o cwd s h

/-- Witness for C10: after the concrete reuse acquire the local url is
still none and the coordinator is not active, while the returned result
carries the stored url. -/
theorem claim_C10_witness :
    (acquireSharedGateway oReuse "/proj" sReuse).1 =
      some { url := "http://127.0.0.1:7777", isShared := true }
    ∧ getSharedGatewayUrl (acquireSharedGateway oReuse "/proj" sReuse).2 = none
    ∧ isSharedGatewayActive (acquireSharedGateway oReuse "/proj" sReuse).2 = false
    ∧ (acquireSharedGateway oTest "/x" sReuse).2.localGatewayProcess =
        sReuse.localGatewayProcess := by
  have h1 := claim_C10.1 oReuse "/proj" sReuse infoW rfl rfl rfl rfl rfl rfl rfl rfl
  have h2 := claim_C10.2 oTest "/x" sReuse rfl
  exact ⟨h1.1, h1.2.1, h1.2.2, h2.1⟩

/-- Claim C2: a release that drives the stored refCount to 0 arms a fresh
delayed idle-shutdown check (replacing any previously armed one) instead
of killing immediately; the armed callback kills the locally held backend
and clears the record only when the re-read refCount is exactly 0; and a
reuse acquire before the callback cancels the pending shutdown, leaving
the backend unkilled with its refCount incremented. -/
theorem claim_C2 :
    (∀ (o : SysEnv) (s : CoordState) (info : GatewayInfo),
       s.isCoordinatorInit = true → s.store = some info → info.refCount ≤ 1 →
       o.writeOk = true →
       releaseSharedGateway o s =
         { s with store := some { info with refCount := 0 },
                  idleShutdownTimer := some s.timerGen, timerGen := s.timerGen + 1 }
       ∧ (∀ t, s.idleShutdownTimer = some t → t < s.timerGen →
           (releaseSharedGateway o s).idleShutdownTimer ≠ some t)
       ∧ (releaseSharedGateway o s).killedPids = s.killedPids)
    ∧ (∀ (o : SysEnv) (s : CoordState) (info : GatewayInfo) (pid : Nat),
        s.store = some info → info.refCount = 0 → s.localGatewayProcess = some pid →
        o.clearOk = true →
        idleShutdownFire o s =
          { s with store := none, localGatewayProcess := none,
                   localGatewayUrl := none, idleShutdownTimer := none,
                   killedPids := s.killedPids ++ [pid] })
    ∧ (∀ (o : SysEnv) (s : CoordState) (info : GatewayInfo),
        s.store = some info → info.refCount ≠ 0 →
        idleShutdownFire o s = { s with idleShutdownTimer := none })
    ∧ (∀ (o : SysEnv) (cwd : String) (s : CoordState) (info : GatewayInfo),
        o.testMode = false → o.ensureDirOk = true → o.writeOk = true →
        s.store = some info → o.pidRunning info.pid = true → o.healthy info.url = true →
        (acquireSharedGateway o cwd s).2.idleShutdownTimer = none
        ∧ (acquireSharedGateway o cwd s).2.killedPids = s.killedPids
        ∧ (acquireSharedGateway o cwd s).2.store =
            some { info with refCount := info.refCount + 1 }) := by
  refine ⟨?_, ?_, ?_, ?_⟩
  · intro o s info hi hst hr hw
    have he := release_clamp_zero o s info hi hst hw hr
    refine ⟨he, ?_, by rw [he]⟩
    intro t ht hlt
    rw [he]
    intro hcontra
    simp only [Option.some.injEq] at hcontra
    omega
  · intro o s info pid hst hrc hlp hcl
    simp [idleShutdownFire, hst, hrc, shutdownLocalGateway, hlp, clearGatewayInfo, hcl]
  · intro o s info hst hrc
    simp [idleShutdownFire, hst, hrc]
  · intro o cwd s info htm hdir hw hst hpid hhl
    have hal : isGatewayAlive o info = true := by simp [isGatewayAlive, hpid, hhl]
    have hb := acquireBody_reuse o cwd s info hdir hst hal hw
    have he := acquire_eq_ok o cwd s _ _ htm hb
    rw [he]
    exact ⟨rfl, rfl, rfl⟩

/-- Witness for C2: releasing the last reference on the concrete state
arms timer 4 in place of timer 3 and kills nothing; firing the callback on
the zero-count state kills pid 999 and clears the record; firing it on the
count 2 state only drops the timer handle; a reuse acquire clears the
pending timer. -/
theorem claim_C2_witness :
    releaseSharedGateway oReuse sOne =
      { sOne with store := some { infoOne with refCount := 0 },
                  idleShutdownTimer := some 4, timerGen := 5 }
    ∧ (releaseSharedGateway oReuse sOne).idleShutdownTimer ≠ some 3
    ∧ idleShutdownFire oReuse sFire =
      { sFire with store := none, localGatewayProcess := none,
                   localGatewayUrl := none, idleShutdownTimer := none,
                   killedPids := [999] }
    ∧ idleShutdownFire oReuse sInit = { sInit with idleShutdownTimer := none }
    ∧ (acquireSharedGateway oReuse "/proj" sReuse).2.idleShutdownTimer = none := by
  have h1 := claim_C2.1 oReuse sOne infoOne rfl rfl (by decide) rfl
  have h2 := claim_C2.2.1 oReuse sFire { infoW with refCount := 0 } 999 rfl rfl rfl rfl
  have h3 := claim_C2.2.2.1 oReuse sInit infoW rfl (by decide)
  have h4 := claim_C2.2.2.2 oReuse "/proj" sReuse infoW rfl rfl rfl rfl rfl rfl
  exact ⟨h1.1, h1.2.1 3 rfl (by decide), h2, h3, h4.1⟩

/-- Counterexample to claim C7 as stated: under the test-mode flag,
shutdown still clears the persisted record and still kills a locally held
backend process, so not every public coordinator operation is disabled. -/
theorem claim_C7_counterexample :
    oTest.testMode = true
    ∧ sReuse.store = some infoW
    ∧ (shutdownSharedGateway oTest sReuse).store = none
    ∧ sFire.killedPids = []
    ∧ (shutdownSharedGateway oTest sFire).killedPids = [999] := by
  exact ⟨rfl, rfl, rfl, rfl, rfl⟩

/-- Claim C7 as amended: under the test-mode flag acquire short-circuits
to null with no state change; release is a no-op exactly in an invocation
that never successfully acquired (the initialized flag is false, as in any
pure test-mode invocation); getUrl and isActive only report the
invocation-local launch state, which is empty in such an invocation; and
shutdown does not consult the flag: it always clears the record and drops
the initialized flag. -/
theorem claim_C7 :
    (∀ (o : SysEnv) (cwd : String) (s : CoordState), o.testMode = true →
       acquireSharedGateway o cwd s = (none, s))
    ∧ (∀ (o : SysEnv) (s : CoordState), s.isCoordinatorInit = false →
        releaseSharedGateway o s = s)
    ∧ (∀ s : CoordState, s.localGatewayUrl = none → getSharedGatewayUrl s = none)
    ∧ (∀ s : CoordState, s.localGatewayProcess = none →
        isSharedGatewayActive s = false)
    ∧ (∀ (o : SysEnv) (s : CoordState), o.clearOk = true →
        (shutdownSharedGateway o s).store = none
        ∧ (shutdownSharedGateway o s).isCoordinatorInit = false) := by
  refine ⟨?_, release_noop_uninit, ?_, ?_, ?_⟩
  · intro o cwd s h
    simp [acquireSharedGateway, h]
  · intro s h
    simp [getSharedGatewayUrl, h]
  · intro s h
    simp [isSharedGatewayActive, h]
  · intro o s hcl
    unfold shutdownSharedGateway cancelIdleShutdown clearGatewayInfo shutdownLocalGateway
    cases hst : s.store <;> cases hlp : s.localGatewayProcess <;> simp [hst, hlp, hcl]

/-- Witness for the amended C7 at concrete inputs: test-mode acquire is
null and inert, release without successful acquire is inert, the local
views are empty, and a test-mode shutdown still clears the record. -/
theorem claim_C7_witness :
    acquireSharedGateway oTest "/proj" sReuse = (none, sReuse)
    ∧ releaseSharedGateway oTest sReuse = sReuse
    ∧ getSharedGatewayUrl sReuse = none
    ∧ isSharedGatewayActive sReuse = false
    ∧ (shutdownSharedGateway oTest sReuse).store = none := by
  exact ⟨claim_C7.1 oTest "/proj" sReuse rfl,
         claim_C7.2.1 oTest sReuse rfl,
         claim_C7.2.2.1 sReuse rfl,
         claim_C7.2.2.2.1 sReuse rfl,
         (claim_C7.2.2.2.2 oTest sReuse rfl).1⟩

/-- Claim C9: once the runtime is resolved and a port allocated, launching
has exactly three outcomes: success with the url and pid as soon as the
health probe succeeds; an immediate launch-failure error when the process
is observed to have exited before becoming healthy, with no kill and
without waiting out the remaining budget; or, when the whole startup
budget elapses without health, a kill of the spawned process tree and a
startup-timeout error. -/
theorem claim_C9 (o : SysEnv) (cwd : String) (s : CoordState)
    (rt : RuntimeResult) (port : Nat)
    (hrt : resolvePythonRuntime o cwd (filterEnv o.shellEnv) = Except.ok rt)
    (hp : o.allocPort = Except.ok port) :
    ((startGatewayProcess o cwd s).1 =
        Except.ok ("http://127.0.0.1:" ++ toString port, o.spawnPid)
     ∨ (startGatewayProcess o cwd s).1 =
        Except.error "Gateway process exited during startup"
     ∨ (startGatewayProcess o cwd s).1 = Except.error "Gateway startup timeout")
    ∧ (∀ k, k < o.pollFuel →
        (∀ j, j < k → o.pollExited j = false ∧ o.pollHealthy j = false) →
        o.pollExited k = false → o.pollHealthy k = true →
        startGatewayProcess o cwd s =
          (Except.ok ("http://127.0.0.1:" ++ toString port, o.spawnPid),
           { spawnedState o cwd s rt with
               localGatewayProcess := some o.spawnPid,
               localGatewayUrl := some ("http://127.0.0.1:" ++ toString port) }))
    ∧ (∀ k, k < o.pollFuel →
        (∀ j, j < k → o.pollExited j = false ∧ o.pollHealthy j = false) →
        o.pollExited k = true →
        startGatewayProcess o cwd s =
          (Except.error "Gateway process exited during startup",
           spawnedState o cwd s rt))
    ∧ ((∀ k, k < o.pollFuel → o.pollExited k = false ∧ o.pollHealthy k = false) →
        startGatewayProcess o cwd s =
          (Except.error "Gateway startup timeout",
           { spawnedState o cwd s rt with
               killedPids := s.killedPids ++ [o.spawnPid] })) := by
  have hsp := startGatewayProcess_spawned o cwd s rt port hrt hp
  refine ⟨?_, ?_, ?_, ?_⟩
  · rw [hsp]
    rcases pollLoopAux_cases o ("http://127.0.0.1:" ++ toString port) o.spawnPid
      (spawnedState o cwd s rt) o.pollFuel 0 with h | h | h <;> rw [h]
    · left; rfl
    · right; left; rfl
    · right; right; rfl
  · intro k hk hpre hx hh
    rw [hsp]
    exact pollLoopAux_healthy o ("http://127.0.0.1:" ++ toString port) o.spawnPid
      (spawnedState o cwd s rt) o.pollFuel k 0 hk
      (fun j hj => by simpa using hpre j hj)
      (by simpa using hx) (by simpa using hh)
  · intro k hk hpre hx
    rw [hsp]
    exact pollLoopAux_exited o ("http://127.0.0.1:" ++ toString port) o.spawnPid
      (spawnedState o cwd s rt) o.pollFuel k 0 hk
      (fun j hj => by simpa using hpre j hj)
      (by simpa using hx)
  · intro hnone
    rw [hsp]
    have ht := pollLoopAux_timeout o ("http://127.0.0.1:" ++ toString port) o.spawnPid
      (spawnedState o cwd s rt) o.pollFuel 0
      (fun k hk => by simpa using hnone k hk)
    rw [ht]
    rfl

/-- Witness for C9: under the concrete oracles the healthy launch returns
the port 8888 url with pid 4343 and kills nothing, the exiting launch
fails with the launch-failure error and kills nothing, and the stalled
launch fails with the startup-timeout error after killing pid 4343. -/
theorem claim_C9_witness :
    (startGatewayProcess oReuse "/proj" sEmpty).1 =
      Except.ok ("http://127.0.0.1:8888", 4343)
    ∧ (startGatewayProcess oExit "/proj" sEmpty).1 =
        Except.error "Gateway process exited during startup"
    ∧ (startGatewayProcess oExit "/proj" sEmpty).2.killedPids = []
    ∧ (startGatewayProcess oTimeout "/proj" sEmpty).1 =
        Except.error "Gateway startup timeout"
    ∧ (startGatewayProcess oTimeout "/proj" sEmpty).2.killedPids = [4343] := by
  have h1 := (claim_C9 oReuse "/proj" sEmpty rtW 8888 rfl rfl).2.1 0 (by decide)
    (fun j hj => absurd hj (Nat.not_lt_zero j)) rfl rfl
  have h2 := (claim_C9 oExit "/proj" sEmpty rtW 8888 rfl rfl).2.2.1 0 (by decide)
    (fun j hj => absurd hj (Nat.not_lt_zero j)) rfl
  have h3 := (claim_C9 oTimeout "/proj" sEmpty rtW 8888 rfl rfl).2.2.2
    (fun k _ => ⟨rfl, rfl⟩)
  exact ⟨by rw [h1]; try rfl, by rw [h2]; try rfl, by rw [h2]; try rfl,
         by rw [h3]; try rfl, by rw [h3]; try rfl⟩

/-- Claim C6: acquire is a total function into an optional result, and
every failure inside the try block is converted into a none result at the
coordinator boundary: any thrown error at all, and in particular a failing
state-directory creation, an unresolvable runtime, a failing port
allocation, a crash of the spawned process before health, a startup
timeout, and a failing record write. -/
theorem claim_C6 :
    (∀ (o : SysEnv) (cwd : String) (s : CoordState) (e : String),
       (acquireBody o cwd s).1 = Except.error e →
       (acquireSharedGateway o cwd s).1 = none)
    ∧ (∀ (o : SysEnv) (cwd : String) (s : CoordState),
        o.ensureDirOk = false → (acquireSharedGateway o cwd s).1 = none)
    ∧ (∀ (o : SysEnv) (cwd : String) (s : CoordState) (e : String),
        o.ensureDirOk = true → s.store = none →
        resolvePythonRuntime o cwd (filterEnv o.shellEnv) = Except.error e →
        (acquireSharedGateway o cwd s).1 = none)
    ∧ (∀ (o : SysEnv) (cwd : String) (s : CoordState) (rt : RuntimeResult) (e : String),
        o.ensureDirOk = true → s.store = none →
        resolvePythonRuntime o cwd (filterEnv o.shellEnv) = Except.ok rt →
        o.allocPort = Except.error e →
        (acquireSharedGateway o cwd s).1 = none)
    ∧ (∀ (o : SysEnv) (cwd : String) (s : CoordState) (rt : RuntimeResult)
        (port k : Nat),
        o.ensureDirOk = true → s.store = none →
        resolvePythonRuntime o cwd (filterEnv o.shellEnv) = Except.ok rt →
        o.allocPort = Except.ok port → k < o.pollFuel →
        (∀ j, j < k → o.pollExited j = false ∧ o.pollHealthy j = false) →
        o.pollExited k = true →
        (acquireSharedGateway o cwd s).1 = none)
    ∧ (∀ (o : SysEnv) (cwd : String) (s : CoordState) (rt : RuntimeResult) (port : Nat),
        o.ensureDirOk = true → s.store = none →
        resolvePythonRuntime o cwd (filterEnv o.shellEnv) = Except.ok rt →
        o.allocPort = Except.ok port →
        (∀ k, k < o.pollFuel → o.pollExited k = false ∧ o.pollHealthy k = false) →
        (acquireSharedGateway o cwd s).1 = none)
    ∧ (∀ (o : SysEnv) (cwd : String) (s : CoordState) (url : String) (pid : Nat)
        (s1 : CoordState),
        o.ensureDirOk = true → s.store = none → o.writeOk = false →
        startGatewayProcess o cwd s = (Except.ok (url, pid), s1) →
        (acquireSharedGateway o cwd s).1 = none) := by
  refine ⟨acquire_none_of_body_err, ?_, ?_, ?_, ?_, ?_, ?_⟩
  · intro o cwd s hdir
    exact acquire_none_of_body_err o cwd s "ensureGatewayDir failed"
      (by simp [acquireBody, hdir])
  · intro o cwd s e hdir hst hrt
    refine acquire_none_of_body_err o cwd s e ?_
    rw [acquireBody_absent o cwd s hdir hst,
        acquireLaunch_err o cwd s e s (startGatewayProcess_resolveErr o cwd s e hrt)]
  · intro o cwd s rt e hdir hst hrt hp
    refine acquire_none_of_body_err o cwd s e ?_
    rw [acquireBody_absent o cwd s hdir hst,
        acquireLaunch_err o cwd s e s (startGatewayProcess_portErr o cwd s rt e hrt hp)]
  · intro o cwd s rt port k hdir hst hrt hp hk hpre hx
    refine acquire_none_of_body_err o cwd s "Gateway process exited during startup" ?_
    have hsp := startGatewayProcess_spawned o cwd s rt port hrt hp
    rw [pollLoopAux_exited o ("http://127.0.0.1:" ++ toString port) o.spawnPid
        (spawnedState o cwd s rt) o.pollFuel k 0 hk
        (fun j hj => by simpa using hpre j hj) (by simpa using hx)] at hsp
    rw [acquireBody_absent o cwd s hdir hst, acquireLaunch_err o cwd s _ _ hsp]
  · intro o cwd s rt port hdir hst hrt hp hnone
    refine acquire_none_of_body_err o cwd s "Gateway startup timeout" ?_
    have hsp := startGatewayProcess_spawned o cwd s rt port hrt hp
    rw [pollLoopAux_timeout o ("http://127.0.0.1:" ++ toString port) o.spawnPid
        (spawnedState o cwd s rt) o.pollFuel 0
        (fun k hk => by simpa using hnone k hk)] at hsp
    rw [acquireBody_absent o cwd s hdir hst, acquireLaunch_err o cwd s _ _ hsp]
  · intro o cwd s url pid s1 hdir hst hw hsp
    refine acquire_none_of_body_err o cwd s "writeGatewayInfo failed" ?_
    rw [acquireBody_absent o cwd s hdir hst]
    simp [acquireLaunch, hsp, hw]

/-- Witness for C6: under each concrete failing oracle, acquire on the
empty-store state returns none instead of an error. -/
theorem claim_C6_witness :
    (acquireSharedGateway oNoDir "/proj" sEmpty).1 = none
    ∧ (acquireSharedGateway oNoPython "/proj" sEmpty).1 = none
    ∧ (acquireSharedGateway oPortFail "/proj" sEmpty).1 = none
    ∧ (acquireSharedGateway oExit "/proj" sEmpty).1 = none
    ∧ (acquireSharedGateway oTimeout "/proj" sEmpty).1 = none
    ∧ (acquireSharedGateway oWriteFail "/proj" sEmpty).1 = none := by
  refine ⟨claim_C6.2.1 oNoDir "/proj" sEmpty rfl,
          claim_C6.2.2.1 oNoPython "/proj" sEmpty
            "Python executable not found on PATH" rfl rfl rfl,
          claim_C6.2.2.2.1 oPortFail "/proj" sEmpty rtW
            "Failed to allocate port" rfl rfl rfl rfl,
          claim_C6.2.2.2.2.1 oExit "/proj" sEmpty rtW 8888 0 rfl rfl rfl rfl
            (by decide) (fun j hj => absurd hj (Nat.not_lt_zero j)) rfl,
          claim_C6.2.2.2.2.2.1 oTimeout "/proj" sEmpty rtW 8888 rfl rfl rfl rfl
            (fun k _ => ⟨rfl, rfl⟩),
          claim_C6.2.2.2.2.2.2 oWriteFail "/proj" sEmpty "http://127.0.0.1:8888" 4343
            (startGatewayProcess oWriteFail "/proj" sEmpty).2 rfl rfl rfl rfl⟩

/-- Claim C8: runtime resolution prefers an explicit virtual-environment
path from the environment, then a conventional .venv or venv subdirectory
of cwd, then a runtime found on the search path; when a virtual
environment is selected (its python binary exists) that binary is
returned, the venv binary directory is prepended to the returned PATH and
the venv path is recorded in the returned environment; and when no python
binary can be found by any path the resolution fails with an error. -/
theorem claim_C8 :
    (∀ (o : SysEnv) (cwd : String), jsTruthy o.processVirtualEnv = true →
       resolveVenvPath o cwd = o.processVirtualEnv)
    ∧ (∀ (o : SysEnv) (cwd : String), jsTruthy o.processVirtualEnv = false →
        o.fileExists (pathJoin cwd ".venv") = true →
        resolveVenvPath o cwd = some (pathJoin cwd ".venv"))
    ∧ (∀ (o : SysEnv) (cwd : String), jsTruthy o.processVirtualEnv = false →
        o.fileExists (pathJoin cwd ".venv") = false →
        o.fileExists (pathJoin cwd "venv") = true →
        resolveVenvPath o cwd = some (pathJoin cwd "venv"))
    ∧ (∀ (o : SysEnv) (cwd : String), jsTruthy o.processVirtualEnv = false →
        o.fileExists (pathJoin cwd ".venv") = false →
        o.fileExists (pathJoin cwd "venv") = false →
        resolveVenvPath o cwd = none)
    ∧ (∀ (o : SysEnv) (cwd : String) (baseEnv : StrEnv) (vp p0 : String),
        envLookup baseEnv "VIRTUAL_ENV" = some vp → vp ≠ "" →
        o.fileExists (pathJoin (pathJoin vp (binDirName o)) (pythonName o)) = true →
        envLookup baseEnv "PATH" = some p0 → p0 ≠ "" →
        resolvePythonRuntime o cwd baseEnv =
          Except.ok
            { pythonPath := pathJoin (pathJoin vp (binDirName o)) (pythonName o),
              env := envSet (envSet baseEnv "VIRTUAL_ENV" vp) "PATH"
                       (pathJoin vp (binDirName o) ++ delimiterStr o.win32 ++ p0) }
        ∧ envLookup (envSet (envSet baseEnv "VIRTUAL_ENV" vp) "PATH"
              (pathJoin vp (binDirName o) ++ delimiterStr o.win32 ++ p0)) "PATH" =
            some (pathJoin vp (binDirName o) ++ delimiterStr o.win32 ++ p0)
        ∧ envLookup (envSet (envSet baseEnv "VIRTUAL_ENV" vp) "PATH"
              (pathJoin vp (binDirName o) ++ delimiterStr o.win32 ++ p0)) "VIRTUAL_ENV" =
            some vp)
    ∧ (∀ (o : SysEnv) (cwd : String) (baseEnv : StrEnv) (vp p0 : String),
        envLookup baseEnv "VIRTUAL_ENV" = none →
        resolveVenvPath o cwd = some vp → vp ≠ "" →
        o.fileExists (pathJoin (pathJoin vp (binDirName o)) (pythonName o)) = true →
        envLookup baseEnv "PATH" = some p0 → p0 ≠ "" →
        resolvePythonRuntime o cwd baseEnv =
          Except.ok
            { pythonPath := pathJoin (pathJoin vp (binDirName o)) (pythonName o),
              env := envSet (envSet baseEnv "VIRTUAL_ENV" vp) "PATH"
                       (pathJoin vp (binDirName o) ++ delimiterStr o.win32 ++ p0) })
    ∧ (∀ (o : SysEnv) (cwd : String) (baseEnv : StrEnv),
        envLookup baseEnv "VIRTUAL_ENV" = none → resolveVenvPath o cwd = none →
        resolvePythonRuntime o cwd baseEnv = whichFallback o baseEnv)
    ∧ (∀ (o : SysEnv) (env : StrEnv) (p : String), o.which "python" = some p →
        whichFallback o env = Except.ok { pythonPath := p, env := env })
    ∧ (∀ (o : SysEnv) (env : StrEnv) (p : String), o.which "python" = none →
        o.which "python3" = some p →
        whichFallback o env = Except.ok { pythonPath := p, env := env })
    ∧ (∀ (o : SysEnv) (env : StrEnv), o.which "python" = none →
        o.which "python3" = none →
        whichFallback o env = Except.error "Python executable not found on PATH")
    ∧ (∀ (o : SysEnv) (cwd : String) (baseEnv : StrEnv) (vp : String),
        envLookup baseEnv "VIRTUAL_ENV" = some vp → vp ≠ "" →
        o.fileExists (pathJoin (pathJoin vp (binDirName o)) (pythonName o)) = false →
        o.which "python" = none → o.which "python3" = none →
        resolvePythonRuntime o cwd baseEnv =
          Except.error "Python executable not found on PATH") := by
  refine ⟨?_, ?_, ?_, ?_, ?_, ?_, ?_, ?_, ?_, ?_, ?_⟩
  · intro o cwd h
    simp [resolveVenvPath, h]
  · intro o cwd h1 h2
    simp [resolveVenvPath, h1, h2]
  · intro o cwd h1 h2 h3
    simp [resolveVenvPath, h1, h2, h3]
  · intro o cwd h1 h2 h3
    simp [resolveVenvPath, h1, h2, h3]
  · intro o cwd baseEnv vp p0 hv hne hf hp hp0
    have hlp : envLookup (envSet baseEnv "VIRTUAL_ENV" vp) "PATH" = some p0 := by
      rw [envLookup_envSet_ne baseEnv "VIRTUAL_ENV" vp "PATH" (by decide)]
      exact hp
    refine ⟨?_, envLookup_envSet_self _ _ _, ?_⟩
    · simp [resolvePythonRuntime, hv, jsTruthy, hne, hf, prependedPath, hlp, hp0]
    · rw [envLookup_envSet_ne _ "PATH" _ "VIRTUAL_ENV" (by decide)]
      exact envLookup_envSet_self baseEnv "VIRTUAL_ENV" vp
  · intro o cwd baseEnv vp p0 hv hrv hne hf hp hp0
    have hlp : envLookup (envSet baseEnv "VIRTUAL_ENV" vp) "PATH" = some p0 := by
      rw [envLookup_envSet_ne baseEnv "VIRTUAL_ENV" vp "PATH" (by decide)]
      exact hp
    simp [resolvePythonRuntime, hv, hrv, jsTruthy, hne, hf, prependedPath, hlp, hp0]
  · intro o cwd baseEnv hv hrv
    simp [resolvePythonRuntime, hv, hrv, jsTruthy]
  · intro o env p h
    simp [whichFallback, h]
  · intro o env p h1 h2
    simp [whichFallback, h1, h2]
  · intro o env h1 h2
    simp [whichFallback, h1, h2]
  · intro o cwd baseEnv vp hv hne hf h1 h2
    simp [resolvePythonRuntime, hv, jsTruthy, hne, hf, whichFallback, h1, h2]

/-- Witness for C8 at concrete oracles: the process VIRTUAL_ENV wins, the
cwd/.venv directory is found next, a selected venv yields its python with
the prepended PATH and recorded VIRTUAL_ENV, the fallback takes python
from the search path, and with no venv and no python anywhere the
resolution errors. -/
theorem claim_C8_witness :
    resolveVenvPath oVenvProc "/proj" = some "/env/v"
    ∧ resolveVenvPath oDotVenv "/proj" = some "/proj/.venv"
    ∧ resolvePythonRuntime oVenv "/proj" baseEnvV =
        Except.ok { pythonPath := "/proj/.venv/bin/python",
                    env := [("PATH", "/proj/.venv/bin:/usr/bin"),
                            ("VIRTUAL_ENV", "/proj/.venv")] }
    ∧ resolvePythonRuntime oReuse "/proj" baseEnvW =
        Except.ok { pythonPath := "/usr/bin/python", env := baseEnvW }
    ∧ resolvePythonRuntime oNoPython "/proj" baseEnvW =
        Except.error "Python executable not found on PATH" := by
  have hA1 := claim_C8.1 oVenvProc "/proj" (by decide)
  have hA2 := claim_C8.2.1 oDotVenv "/proj" (by decide) rfl
  have hB1 := claim_C8.2.2.2.2.1 oVenv "/proj" baseEnvV "/proj/.venv" "/usr/bin"
    rfl (by decide) rfl rfl (by decide)
  have hC := claim_C8.2.2.2.2.2.2.1 oReuse "/proj" baseEnvW rfl rfl
  have hD1 := claim_C8.2.2.2.2.2.2.2.1 oReuse baseEnvW "/usr/bin/python" rfl
  have hC2 := claim_C8.2.2.2.2.2.2.1 oNoPython "/proj" baseEnvW rfl rfl
  have hD3 := claim_C8.2.2.2.2.2.2.2.2.2.1 oNoPython baseEnvW rfl rfl
  refine ⟨by rw [hA1]; try rfl, hA2, ?_, ?_, ?_⟩
  · rw [hB1.1]; try rfl
  · rw [hC, hD1]; try rfl
  · rw [hC2, hD3]; try rfl

end PyGateway
